import Mathlib

/-!
Verification of the concurrent audio-capture and session pipeline of
`src/python/translator_in_real_time.py` (MixedSubtitles).

The embedding models, at the byte and state level:
- the audio configuration constants (lines 30-33);
- the WAV container produced by the `wave` module in `stop_recording`
  (lines 170-182) and a conforming reader for it;
- the mutex-protected recording state machine (`start_recording`,
  `stop_recording`, `record_audio`, `on_closing`) as explicit state
  passing, with the non-reentrant `threading.Lock` modelled as data;
- the `process_audio` pipeline's control flow (which external calls are
  made, in which order, under which guards).
-/

namespace RealTimeTranslator

/-! ### Audio configuration (lines 30-33)

`CHUNK = 1024`, `FORMAT = paInt16` (2-byte samples), `CHANNELS = 1`,
`RATE = 16000`.  `sampleWidth` is `p.get_sample_size(pyaudio.paInt16)`,
i.e. 2 bytes per sample. -/

def CHUNK : Nat := 1024
def CHANNELS : Nat := 1
def RATE : Nat := 16000
def sampleWidth : Nat := 2

/-- A byte, modelled as a natural number (values < 256 where produced). -/
abbrev Byte := Nat

/-- One chunk of PCM bytes as returned by `stream.read(CHUNK, ...)`. -/
abbrev Chunk := List Byte

/-! ### Little-endian integer fields of the WAV header -/

/-- Two-byte little-endian encoding (`struct '<H'`), wrapping mod 2^16. -/
def u16le (n : Nat) : List Byte :=
  [n % 256, n / 256 % 256]

/-- Four-byte little-endian encoding (`struct '<L'`), wrapping mod 2^32. -/
def u32le (n : Nat) : List Byte :=
  [n % 256, n / 256 % 256, n / 65536 % 256, n / 16777216 % 256]

/-- Decode a two-byte little-endian field. -/
def dec16 (a b : Nat) : Nat := a + 256 * b

/-- Decode a four-byte little-endian field. -/
def dec32 (a b c d : Nat) : Nat := a + 256 * b + 65536 * c + 16777216 * d

theorem dec32_u32le (n : Nat) :
    dec32 (n % 256) (n / 256 % 256) (n / 65536 % 256) (n / 16777216 % 256)
      = n % 4294967296 := by
  unfold dec32
  omega

/-! ### The Encoder (stop_recording lines 170-176)

`wave.open(buffer, "wb")` with `setnchannels`, `setsampwidth`,
`setframerate` followed by `writeframes(b''.join(frames))` emits the
canonical 44-byte RIFF/WAVE header and then the payload:
`RIFF`, riff-chunk size `36 + len(data)`, `WAVE`, `fmt `, fmt size 16,
compression tag 1 (PCM), channels, frame rate, byte rate, block align,
bits per sample, `data`, data size, payload. -/

def wavEncode (channels sampwidth framerate : Nat) (data : List Byte) :
    List Byte :=
  [82, 73, 70, 70] ++ u32le (36 + data.length)
    ++ [87, 65, 86, 69]
    ++ [102, 109, 116, 32] ++ u32le 16 ++ u16le 1
    ++ u16le channels ++ u32le framerate
    ++ u32le (framerate * channels * sampwidth)
    ++ u16le (channels * sampwidth) ++ u16le (sampwidth * 8)
    ++ [100, 97, 116, 97] ++ u32le data.length ++ data

/-- The encoding step of `stop_recording`: join the captured chunks and
wrap them in a WAV container at the configured metadata. -/
def encodeSession (frames : List Chunk) : List Byte :=
  wavEncode CHANNELS sampleWidth RATE frames.flatten

/-- A conforming WAV reader (modelled on `wave.Wave_read`): verifies the
`RIFF`/`WAVE` magics, the `fmt ` chunk of size 16 with PCM compression
tag 1, then returns the declared channel count, frame rate, bits per
sample, and the payload of the declared data size. -/
def wavParse (bs : List Byte) :
    Option (Nat × Nat × Nat × List Byte) :=
  match bs with
  | 82 :: 73 :: 70 :: 70 :: _ :: _ :: _ :: _ ::
    87 :: 65 :: 86 :: 69 ::
    102 :: 109 :: 116 :: 32 :: 16 :: 0 :: 0 :: 0 :: 1 :: 0 ::
    c1 :: c2 :: f1 :: f2 :: f3 :: f4 ::
    _ :: _ :: _ :: _ :: _ :: _ :: w1 :: w2 ::
    100 :: 97 :: 116 :: 97 :: n1 :: n2 :: n3 :: n4 :: rest =>
      some (dec16 c1 c2, dec32 f1 f2 f3 f4, dec16 w1 w2,
        rest.take (dec32 n1 n2 n3 n4))
  | _ => none

/-! ### The recording state machine (lines 38-44, 121-218)

Global mutable state of the program: `is_recording`, `frames`, `stream`,
`recording_start_time`, `exit_event`.  Every access happens inside
`with record_lock`; each lock-protected critical section is modelled as
one atomic function on `AppState`.  Stream handles are identifiers
(`Option Nat`); timestamps are naturals. -/

structure AppState where
  is_recording : Bool
  frames : List Chunk
  stream : Option Nat
  recording_start_time : Nat
  exit_event : Bool
deriving Repr, DecidableEq

/-- The program's initial global state (lines 39-43). -/
def initState : AppState :=
  { is_recording := false, frames := [], stream := none,
    recording_start_time := 0, exit_event := false }

/-- `threading.Lock.acquire` on a non-reentrant lock: succeeds only when
the lock is free; an acquire by the holding thread blocks forever
(`none`). -/
def lockAcquire (held : Bool) : Option Unit :=
  if held then none else some ()

inductive StartResult where
  | alreadyRecording
  | started
  | deviceError
deriving Repr, DecidableEq

/-- `start_recording` (lines 121-143), one critical section.
`openResult` is the outcome of `p.open(...)`: `some h` on success,
`none` when it raises.  On the exception path `is_recording` has already
been set `True` and `frames` cleared before the `except` handler resets
`is_recording` to `False`; `stream` and `recording_start_time` keep
their prior values. -/
def start_recording (s : AppState) (openResult : Option Nat) (now : Nat) :
    AppState × StartResult :=
  if s.is_recording then
    (s, .alreadyRecording)
  else
    match openResult with
    | some h =>
        ({ s with is_recording := true, frames := [], stream := some h,
                  recording_start_time := now }, .started)
    | none =>
        ({ s with is_recording := false, frames := [] }, .deviceError)

inductive StopResult where
  | notRecording
  | stopped (buffer : List Byte)
  | closeError
deriving Repr, DecidableEq

/-- `stop_recording` (lines 145-194).  `closeOk` is whether
`stream.stop_stream(); stream.close()` succeeds.  `is_recording` is set
`False` first (line 155), and the `finally` clause sets `stream = None`
(line 167) on both paths; on close failure the function returns before
encoding, so nothing is dispatched.  On success the frames are joined,
WAV-encoded in memory and the buffer handed to the processing thread.
The live `frames` list is not cleared here (it is cleared by the next
`start_recording`). -/
def stop_recording (s : AppState) (closeOk : Bool) : AppState × StopResult :=
  if ¬ s.is_recording then
    (s, .notRecording)
  else
    let s1 := { s with is_recording := false, stream := none }
    if ¬ closeOk then
      (s1, .closeError)
    else
      (s1, .stopped (encodeSession s.frames))

/-- Whether a `stop_recording` outcome starts the processing thread
(lines 192-194: reached exactly when the stop succeeded and the WAV
buffer was written and self-checked). -/
def stopDispatches : StopResult → Bool
  | .stopped _ => true
  | _ => false

/-- Outcome of one capture-loop iteration: either the critical section
completes and releases the lock with the given state, or the thread
blocks forever inside it with the state as it stood (the lock is never
released). -/
inductive IterOutcome where
  | ran (s : AppState)
  | blocked (s : AppState)
deriving Repr, DecidableEq

/-- One iteration of `record_audio`'s loop body (lines 199-208).
`readResult` is the outcome of `stream.read(CHUNK, ...)`: `some data` on
success, `none` when it raises.  The body acquires `record_lock`; under
the guard `is_recording and stream is not None` it reads one chunk and
appends it.  On a read error the handler calls `stop_recording()`, whose
first statement re-acquires the same non-reentrant `record_lock`, which
this thread already holds. -/
def record_audio_iter (s : AppState) (readResult : Option Chunk) :
    IterOutcome :=
  match lockAcquire false with
  | none => .blocked s
  | some _ =>
    if s.is_recording ∧ s.stream.isSome then
      match readResult with
      | some data => .ran { s with frames := s.frames ++ [data] }
      | none =>
          match lockAcquire true with
          | none => .blocked s
          | some _ => .ran (stop_recording s true).1
    else .ran s

/-- The state a capture iteration leaves behind, whether or not the
iteration completed. -/
def iterState (s : AppState) (readResult : Option Chunk) : AppState :=
  match record_audio_iter s readResult with
  | .ran t => t
  | .blocked t => t

/-- Run the capture loop over a list of successful chunk reads. -/
def captureN (s : AppState) (chunks : List Chunk) : AppState :=
  chunks.foldl (fun t c => iterState t (some c)) s

/-- `on_closing` (lines 210-218).  Returns the resulting state, whether
the application exits (`exit_event.set(); root.destroy()` reached), and
whether a completed session was dispatched to the processing pipeline.
`confirmed` is the user's answer to the quit confirmation dialog;
`closeOk` is whether closing the stream succeeds inside the implicit
`stop_recording()`. -/
def on_closing (s : AppState) (confirmed : Bool) (closeOk : Bool) :
    AppState × Bool × Bool :=
  if s.is_recording then
    if confirmed then
      let r := stop_recording s closeOk
      ({ r.1 with exit_event := true }, true, stopDispatches r.2)
    else
      (s, false, false)
  else
    ({ s with exit_event := true }, true, false)

/-! ### The processing pipeline (process_audio, lines 69-119)

`process_audio` receives the WAV buffer.  Its control flow depends on
the buffer's bytes and on the transcription service's response:
an exception or a falsy result object, a result object without a `text`
attribute, or a result object carrying a text (possibly empty). -/

inductive TransResponse where
  | raised
  | falsyResult
  | noTextAttr
  | ok (text : List Byte)
deriving Repr, DecidableEq

/-- The externally visible calls of one `process_audio` run: whether the
transcription service was called, and whether the translation service
was called. -/
def process_audio (audioData : List Byte) (resp : TransResponse) :
    Bool × Bool :=
  if audioData.isEmpty then
    (false, false)
  else
    match resp with
    | .raised => (true, false)
    | .falsyResult => (true, false)
    | .noTextAttr => (true, false)
    | .ok _ => (true, true)

theorem wavParse_wavEncode (data : List Byte)
    (h : data.length + 36 < 4294967296) :
    wavParse (wavEncode 1 2 16000 data) = some (1, 16000, 16, data) := by
  have h1 : wavParse (wavEncode 1 2 16000 data)
      = some (dec16 1 0, dec32 128 62 0 0, dec16 16 0,
          List.take (dec32 (data.length % 256) (data.length / 256 % 256)
            (data.length / 65536 % 256) (data.length / 16777216 % 256))
            data) := rfl
  rw [h1, dec32_u32le, Nat.mod_eq_of_lt (by omega), List.take_length]
  norm_num [dec16, dec32]

/-! ### Timing of the capture loop (line 208) -/

/-- The idle delay of the capture loop: `time.sleep(0.01)`. -/
def sleepSeconds : ℚ := 1 / 100

/-- Seconds of audio held by one chunk at the configured rate. -/
def chunkSeconds : ℚ := (CHUNK : ℚ) / (RATE : ℚ)

/-! ### Auxiliary notions for the invariant claims -/

/-- The guard of the capture loop's read (line 201): a
`stream.read(CHUNK, ...)` is executed exactly when this holds. -/
def iterReads (s : AppState) : Bool :=
  s.is_recording && s.stream.isSome

/-- The shared-state invariant at lock release: `Recording` implies the
stream handle is set, `Idle` implies it is `None`. -/
def StateInv (s : AppState) : Prop :=
  (s.is_recording = true → s.stream.isSome = true) ∧
  (s.is_recording = false → s.stream = none)

/-- The lock-protected critical sections that complete and release the
lock: a `start_recording` call, a `stop_recording` call, and a capture
iteration whose body runs to completion (a blocked iteration never
releases the lock and so never yields a release point). -/
inductive Step : AppState → AppState → Prop where
  | start (s : AppState) (openResult : Option Nat) (now : Nat) :
      Step s (start_recording s openResult now).1
  | stop (s : AppState) (closeOk : Bool) :
      Step s (stop_recording s closeOk).1
  | capture (s t : AppState) (rd : Option Chunk)
      (hc : record_audio_iter s rd = .ran t) : Step s t

/-- A representative mid-session state: recording in progress, one chunk
captured, stream handle open. -/
def sampleRecordingState : AppState :=
  { is_recording := true, frames := [[1, 2]], stream := some 0,
    recording_start_time := 3, exit_event := false }

/-- While recording with an open stream, running the capture loop over a
list of successful reads appends exactly those chunks, in order, and
changes nothing else. -/
theorem captureN_run (chunks : List Chunk) :
    ∀ s : AppState, s.is_recording = true → s.stream.isSome = true →
      captureN s chunks = { s with frames := s.frames ++ chunks } := by
  induction chunks with
  | nil => intro s _ _; simp [captureN]
  | cons c cs ih =>
    intro s h hs
    have hstep : iterState s (some c) = { s with frames := s.frames ++ [c] } := by
      simp [iterState, record_audio_iter, lockAcquire, h, hs]
    have hrec : captureN s (c :: cs) = captureN (iterState s (some c)) cs := rfl
    rw [hrec, hstep, ih { s with frames := s.frames ++ [c] } h hs]
    simp

/-! ### Claims -/

/-- C1: The spec states that a read failure while `Recording` triggers an
internal stop equivalent to `Stop()`, transitioning the state to `Idle`
and finalizing the session.  The code (line 207) indeed calls
`stop_recording()` with that intent, but it does so while the capture
loop already holds the non-reentrant `record_lock` (line 200):
`stop_recording`'s own `with record_lock` (line 148) then blocks
forever.  At a concrete recording state with an open stream and a failed
read, the iteration deadlocks and the state remains `Recording` — the
session is never finalized. -/
theorem C1_read_failure_deadlocks :
    record_audio_iter sampleRecordingState none
        = .blocked sampleRecordingState ∧
    sampleRecordingState.is_recording = true := by
  decide

/-- C2: The spec states that an empty frame sequence at `Stop()` yields
`EmptySession` and the Processing Pipeline is never invoked, so no empty
audio reaches the Transcription service.  The code's own guard
(`if not audio_data: ... Skipping processing`, lines 75-77) documents
that intent, but `stop_recording` encodes even an empty session into a
44-byte header-only WAV and dispatches it; `audio_buffer.getvalue()` is
therefore never empty, the guard cannot fire, and the transcription call
is made with zero frames of audio. -/
theorem C2_empty_session_reaches_transcription :
    (stop_recording { sampleRecordingState with frames := [] } true).2
        = .stopped (encodeSession []) ∧
    stopDispatches
      (stop_recording { sampleRecordingState with frames := [] } true).2
        = true ∧
    (encodeSession []).length = 44 ∧
    wavParse (encodeSession []) = some (1, 16000, 16, []) ∧
    (∀ resp, (process_audio (encodeSession []) resp).1 = true) := by
  refine ⟨by decide, by decide, by decide, by decide, ?_⟩
  intro resp
  have hne : (encodeSession []).isEmpty = false := by decide
  cases resp <;> simp [process_audio, hne]

/-- C3 counterexample: at a concrete active recording state, a confirmed
shutdown runs `stop_recording()`, which starts the processing thread —
the completed session IS dispatched to the Processing Pipeline,
contradicting the claim that it is abandoned without dispatch. -/
theorem C3_counterexample :
    (on_closing sampleRecordingState true true).2.2 = true := by
  decide

/-- C3 (amended): on confirmed shutdown while a session is active, the
session is stopped implicitly like `Stop()` — state transitions to
`Idle`, shutdown proceeds — and when the stop succeeds the completed
session IS dispatched to the Processing Pipeline; if the user declines
confirmation, shutdown is aborted and the state is unchanged. -/
theorem C3_shutdown_behavior (s : AppState) (closeOk : Bool)
    (h : s.is_recording = true) :
    ((on_closing s true closeOk).1.is_recording = false ∧
      (on_closing s true closeOk).1.exit_event = true ∧
      (on_closing s true closeOk).2.1 = true ∧
      (closeOk = true → (on_closing s true closeOk).2.2 = true)) ∧
    on_closing s false closeOk = (s, false, false) := by
  cases closeOk <;>
    simp [on_closing, stop_recording, stopDispatches, h]

theorem C3_shutdown_behavior_witness :
    ((on_closing sampleRecordingState true true).1.is_recording = false ∧
      (on_closing sampleRecordingState true true).1.exit_event = true ∧
      (on_closing sampleRecordingState true true).2.1 = true ∧
      (true = true → (on_closing sampleRecordingState true true).2.2 = true)) ∧
    on_closing sampleRecordingState false true
        = (sampleRecordingState, false, false) :=
  C3_shutdown_behavior sampleRecordingState true rfl

/-- C4: round-trip of the Encoder.  For every sequence of chunks
appended while recording, parsing the encoded container with a
conforming reader returns the configured metadata — channels 1, rate
16000, 16 bits per sample — and exactly the appended chunks' bytes,
concatenated in append order (bounded by the 32-bit RIFF size field, as
in the source container format). -/
theorem C4_encoder_roundtrip (frames : List Chunk)
    (h : frames.flatten.length + 36 < 4294967296) :
    wavParse (encodeSession frames)
        = some (1, 16000, 16, frames.flatten) :=
  wavParse_wavEncode frames.flatten h

theorem C4_encoder_roundtrip_witness :
    wavParse (encodeSession [[1, 2], [3, 4]])
        = some (1, 16000, 16, [1, 2, 3, 4]) :=
  C4_encoder_roundtrip [[1, 2], [3, 4]] (by decide)

/-- C5: for every `Start()` → append K frames → `Stop()` sequence from an
idle state, the buffer handed to the Encoder holds exactly the K
appended chunks, a capture iteration after the stop appends nothing
(the buffer cannot grow while `Idle`), and the live buffer is empty
again once the next `Start()` takes effect. -/
theorem C5_session_cycle (s : AppState) (hdl hdl2 t t2 : Nat)
    (chunks : List Chunk) (h : s.is_recording = false) :
    (captureN (start_recording s (some hdl) t).1 chunks).frames.length
        = chunks.length ∧
    (stop_recording (captureN (start_recording s (some hdl) t).1 chunks)
        true).2 = .stopped (encodeSession chunks) ∧
    (∀ c, iterState
        (stop_recording (captureN (start_recording s (some hdl) t).1 chunks)
          true).1 (some c)
      = (stop_recording (captureN (start_recording s (some hdl) t).1 chunks)
          true).1) ∧
    (start_recording
        (stop_recording (captureN (start_recording s (some hdl) t).1 chunks)
          true).1 (some hdl2) t2).1.frames = [] := by
  have hns : ¬ s.is_recording = true := by simp [h]
  have h1 : (start_recording s (some hdl) t).1
      = { s with is_recording := true, frames := [], stream := some hdl,
                 recording_start_time := t } := by
    simp [start_recording, hns]
  have h2 : captureN (start_recording s (some hdl) t).1 chunks
      = { s with is_recording := true, frames := chunks, stream := some hdl,
                 recording_start_time := t } := by
    rw [h1]
    rw [captureN_run chunks
      { s with is_recording := true, frames := [], stream := some hdl,
               recording_start_time := t } rfl rfl]
    simp
  rw [h2]
  refine ⟨rfl, by simp [stop_recording], ?_, ?_⟩
  · intro c
    simp [stop_recording, iterState, record_audio_iter, lockAcquire]
  · simp [stop_recording, start_recording]

theorem C5_session_cycle_witness :
    (captureN (start_recording initState (some 1) 7).1 [[5, 6], [7, 8]]
        ).frames.length = 2 ∧
    (stop_recording
        (captureN (start_recording initState (some 1) 7).1 [[5, 6], [7, 8]])
        true).2 = .stopped (encodeSession [[5, 6], [7, 8]]) ∧
    (∀ c, iterState
        (stop_recording
          (captureN (start_recording initState (some 1) 7).1 [[5, 6], [7, 8]])
          true).1 (some c)
      = (stop_recording
          (captureN (start_recording initState (some 1) 7).1 [[5, 6], [7, 8]])
          true).1) ∧
    (start_recording
        (stop_recording
          (captureN (start_recording initState (some 1) 7).1 [[5, 6], [7, 8]])
          true).1 (some 2) 9).1.frames = [] :=
  C5_session_cycle initState 1 2 7 9 [[5, 6], [7, 8]] rfl

/-- C6: `Start()` while already `Recording` returns `AlreadyRecording`
and mutates nothing: the state — frame buffer, session start time,
recording flag, stream — is returned unchanged. -/
theorem C6_start_while_recording_no_mutation (s : AppState)
    (openResult : Option Nat) (now : Nat) (h : s.is_recording = true) :
    start_recording s openResult now = (s, .alreadyRecording) := by
  simp [start_recording, h]

theorem C6_start_while_recording_no_mutation_witness :
    start_recording sampleRecordingState (some 4) 9
        = (sampleRecordingState, .alreadyRecording) :=
  C6_start_while_recording_no_mutation sampleRecordingState (some 4) 9 rfl

/-- C7 counterexample: a transcription result object carrying an empty
text is an empty transcription result, yet `process_audio`'s guard
(`not transcription or not hasattr(transcription, 'text')`) does not
catch it: the run proceeds and the Translation service IS called. -/
theorem C7_counterexample :
    process_audio (encodeSession [[1, 2]]) (TransResponse.ok [])
        = (true, true) := by
  decide

/-- C7 (amended): within one `process_audio` run, a transcription
exception, a falsy transcription result, or a result object without a
`text` attribute stops the run before any Translation call; a result
object whose text is empty is, however, still passed to Translation. -/
theorem C7_transcription_failure_no_translation (audioData : List Byte) :
    (process_audio audioData .raised).2 = false ∧
    (process_audio audioData .falsyResult).2 = false ∧
    (process_audio audioData .noTextAttr).2 = false := by
  by_cases h : audioData.isEmpty <;> simp [process_audio, h]

/-- C8: `Stop()` while `Recording` with a failing device close reports
the failure (`closeError`) but still transitions the state to `Idle`
and clears the stream handle: the state is never left as `Recording`. -/
theorem C8_stop_close_failure_still_idle (s : AppState)
    (h : s.is_recording = true) :
    (stop_recording s false).2 = .closeError ∧
    (stop_recording s false).1.is_recording = false ∧
    (stop_recording s false).1.stream = none := by
  simp [stop_recording, h]

theorem C8_stop_close_failure_still_idle_witness :
    (stop_recording sampleRecordingState false).2 = .closeError ∧
    (stop_recording sampleRecordingState false).1.is_recording = false ∧
    (stop_recording sampleRecordingState false).1.stream = none :=
  C8_stop_close_failure_still_idle sampleRecordingState rfl

/-- C9: the capture loop's idle delay (`time.sleep(0.01)`) is strictly
smaller than the time one chunk holds at the configured rate:
1/100 s < CHUNK/RATE = 1024/16000 = 0.064 s. -/
theorem C9_idle_delay_below_chunk_period :
    sleepSeconds < chunkSeconds ∧ chunkSeconds = 64 / 1000 := by
  constructor <;> norm_num [sleepSeconds, chunkSeconds, CHUNK, RATE]

/-- C10: the invariant `Recording → stream set, Idle → stream = None`
holds in the initial state and is preserved by every completed
lock-protected critical section (every lock release); consequently the
capture loop's guarded read (whose guard is `iterReads`) only ever
executes against an open stream. -/
theorem C10_lock_release_invariant (s s' : AppState) (hInv : StateInv s)
    (hStep : Step s s') :
    StateInv initState ∧ StateInv s' ∧
    (iterReads s = true → s.stream.isSome = true) := by
  obtain ⟨hrec, hidle⟩ := hInv
  refine ⟨⟨fun hx => by simp [initState] at hx, fun _ => rfl⟩, ?_, ?_⟩
  · cases hStep with
    | start openResult now =>
      by_cases hb : s.is_recording = true
      · have he : (start_recording s openResult now).1 = s := by
          simp [start_recording, hb]
        rw [he]
        exact ⟨hrec, hidle⟩
      · have hb' : s.is_recording = false := by
          revert hb; cases s.is_recording <;> simp
        cases openResult with
        | some hdl =>
          have he : (start_recording s (some hdl) now).1
              = { s with is_recording := true, frames := [],
                         stream := some hdl, recording_start_time := now } := by
            simp [start_recording, hb]
          rw [he]
          exact ⟨fun _ => rfl, fun hx => absurd hx (by simp)⟩
        | none =>
          have he : (start_recording s none now).1
              = { s with is_recording := false, frames := [] } := by
            simp [start_recording, hb]
          rw [he]
          exact ⟨fun hx => absurd hx (by simp), fun _ => hidle hb'⟩
    | stop closeOk =>
      by_cases hb : s.is_recording = true
      · have he : (stop_recording s closeOk).1
            = { s with is_recording := false, stream := none } := by
          cases closeOk <;> simp [stop_recording, hb]
        rw [he]
        exact ⟨fun hx => absurd hx (by simp), fun _ => rfl⟩
      · have he : (stop_recording s closeOk).1 = s := by
          simp [stop_recording, hb]
        rw [he]
        exact ⟨hrec, hidle⟩
    | capture t rd hc =>
      by_cases hg : s.is_recording = true ∧ s.stream.isSome = true
      · obtain ⟨hg1, hg2⟩ := hg
        cases rd with
        | some data =>
          simp [record_audio_iter, lockAcquire, hg1, hg2] at hc
          rw [← hc]
          exact ⟨fun _ => hg2, fun hx => absurd hx (by simp [hg1])⟩
        | none =>
          simp [record_audio_iter, lockAcquire, hg1, hg2] at hc
      · simp [record_audio_iter, lockAcquire, hg] at hc
        subst hc
        exact ⟨hrec, hidle⟩
  · intro hr
    simp only [iterReads, Bool.and_eq_true] at hr
    exact hr.2

theorem C10_lock_release_invariant_witness :
    StateInv initState ∧
    StateInv (start_recording initState (some 1) 0).1 ∧
    (iterReads initState = true → initState.stream.isSome = true) :=
  C10_lock_release_invariant initState (start_recording initState (some 1) 0).1
    ⟨fun h => by simp [initState] at h, fun _ => rfl⟩
    (Step.start initState (some 1) 0)

end RealTimeTranslator
